import Mathlib

/-!
Verification of the specify-cli acquisition-and-materialization pipeline
(src/specify_cli/__init__.py).

The development shallowly embeds the parts of the program the claims are
about:

* `StepTracker` and its mutations (`add`, `start`, `complete`, `error`,
  `skip`, `_update`, `_maybe_refresh`) — lines 68-152 of the source;
* the release-asset selection of `download_template_from_github` —
  lines 408-427;
* the archive materialization of `download_and_extract_template`
  (flattening, merge-into-current-directory copy loop) — lines 520-609,
  modelled as pure functions on a file tree;
* the orchestrated run of `init` + `download_and_extract_template`
  (tracker trace, archive cleanup, directory rollback) — lines 486-635
  and 770-795, modelled as a function from a failure scenario to the
  final tracker state and filesystem facts.
-/

/-! ## StepTracker (source lines 68-152) -/

/-- One entry of `StepTracker.steps`; in the source each entry is the dict
`\x7bkey, label, status, detail\x7d` (line 74). Statuses are the strings
`pending | running | done | error | skipped` (line 75). -/
structure Step where
  key : String
  label : String
  status : String
  detail : String
deriving Repr, DecidableEq

/-- The tracker: a title plus an ordered list of steps (lines 72-76).
The refresh callback is not part of the state here; it is passed to the
effectful mutation model below, since the source only ever calls it and
swallows its exceptions. -/
structure StepTracker where
  title : String
  steps : List Step
deriving Repr, DecidableEq

/-- `StepTracker.add` (lines 81-84): append a `pending` step when the key is
not already registered, otherwise do nothing. -/
def StepTracker.add (t : StepTracker) (key label : String) : StepTracker :=
  if (t.steps.map (fun s => s.key)).contains key then t
  else { t with steps := t.steps ++ [{ key := key, label := label, status := "pending", detail := "" }] }

/-- Body of `StepTracker._update` (lines 98-108): find the first step with
the key and set its status; the detail is overwritten only when non-empty
(Python `if detail:` truthiness, line 102). When the key is absent a new
step is appended with `label = key` and the given status and detail. -/
def updateSteps : List Step → String → String → String → List Step
  | [], key, status, detail =>
      [{ key := key, label := key, status := status, detail := detail }]
  | s :: rest, key, status, detail =>
      if s.key == key then
        { s with status := status, detail := if detail == "" then s.detail else detail } :: rest
      else
        s :: updateSteps rest key status detail

/-- `StepTracker._update` on the whole tracker. -/
def StepTracker.update (t : StepTracker) (key status detail : String) : StepTracker :=
  { t with steps := updateSteps t.steps key status detail }

/-- `StepTracker.start` (lines 86-87). -/
def StepTracker.start (t : StepTracker) (key detail : String) : StepTracker :=
  t.update key "running" detail

/-- `StepTracker.complete` (lines 89-90). -/
def StepTracker.complete (t : StepTracker) (key detail : String) : StepTracker :=
  t.update key "done" detail

/-- `StepTracker.error` (lines 92-93). -/
def StepTracker.error (t : StepTracker) (key detail : String) : StepTracker :=
  t.update key "error" detail

/-- `StepTracker.skip` (lines 95-96). -/
def StepTracker.skip (t : StepTracker) (key detail : String) : StepTracker :=
  t.update key "skipped" detail

/-! ### Observer model (`attach_refresh` / `_maybe_refresh`, lines 78-79 and 110-115) -/

/-- Behaviour of an attached refresh callback when invoked: it either
returns normally or raises. -/
inductive ObsBehavior where
  | ok
  | throws
deriving Repr, DecidableEq

/-- Invoking the callback itself: `throws` raises an exception. -/
def runObserver : ObsBehavior → Except String Unit
  | ObsBehavior.ok => Except.ok ()
  | ObsBehavior.throws => Except.error "observer raised"

/-- `StepTracker._maybe_refresh` (lines 110-115): call the callback if one
is attached, inside `try ... except Exception: pass`, so any exception it
raises is caught and discarded. -/
def maybeRefresh (cb : Option ObsBehavior) : Except String Unit :=
  match cb with
  | none => Except.ok ()
  | some b =>
      match runObserver b with
      | Except.ok _ => Except.ok ()
      | Except.error _ => Except.ok ()

/-- The five tracker mutations. -/
inductive Mutation where
  | add (key label : String)
  | start (key detail : String)
  | complete (key detail : String)
  | error (key detail : String)
  | skip (key detail : String)
deriving Repr, DecidableEq

/-- Pure effect of a mutation on the tracker state. -/
def applyMutation (t : StepTracker) : Mutation → StepTracker
  | Mutation.add k l => t.add k l
  | Mutation.start k d => t.start k d
  | Mutation.complete k d => t.complete k d
  | Mutation.error k d => t.error k d
  | Mutation.skip k d => t.skip k d

/-- A mutation together with the observer call, in an exception monad: the
state is mutated first, then `_maybe_refresh` runs (lines 84, 104, 108).
For `add` on an already-registered key the source neither mutates nor
refreshes (line 82). An uncaught exception of the callback would abort
the mutation's caller; `maybeRefresh` catches everything, which is what
the theorem below verifies. -/
def applyMutationWithObserver (t : StepTracker) (cb : Option ObsBehavior) :
    Mutation → Except String StepTracker
  | Mutation.add k l =>
      if (t.steps.map (fun s => s.key)).contains k then Except.ok t
      else
        match maybeRefresh cb with
        | Except.ok _ => Except.ok (t.add k l)
        | Except.error e => Except.error e
  | Mutation.start k d =>
      match maybeRefresh cb with
      | Except.ok _ => Except.ok (t.start k d)
      | Except.error e => Except.error e
  | Mutation.complete k d =>
      match maybeRefresh cb with
      | Except.ok _ => Except.ok (t.complete k d)
      | Except.error e => Except.error e
  | Mutation.error k d =>
      match maybeRefresh cb with
      | Except.ok _ => Except.ok (t.error k d)
      | Except.error e => Except.error e
  | Mutation.skip k d =>
      match maybeRefresh cb with
      | Except.ok _ => Except.ok (t.skip k d)
      | Except.error e => Except.error e

/-- Status of the first step with the given key, as `render` would show it. -/
def StepTracker.statusOf (t : StepTracker) (key : String) : Option String :=
  (t.steps.find? (fun s => s.key == key)).map (fun s => s.status)

/-- Detail of the first step with the given key. -/
def StepTracker.detailOf (t : StepTracker) (key : String) : Option String :=
  (t.steps.find? (fun s => s.key == key)).map (fun s => s.detail)

/-- Number of steps whose status is `error`. -/
def errorCount (t : StepTracker) : Nat :=
  (t.steps.filter (fun s => s.status == "error")).length

/-! ## Release asset selection (`download_template_from_github`, lines 408-427)

The selection logic is pure in the asset list of the latest-release feed
response; only the fields it reads are modelled. -/

/-- Python `p.startswith`-style check on character lists. -/
def startsWithChars : List Char → List Char → Bool
  | [], _ => true
  | _ :: _, [] => false
  | p :: ps, c :: cs => p == c && startsWithChars ps cs

/-- Occurrence of `pat` as a contiguous run inside a character list. -/
def containsChars (pat : List Char) : List Char → Bool
  | [] => pat.isEmpty
  | c :: cs => startsWithChars pat (c :: cs) || containsChars pat cs

/-- Python's `pat in s` substring test. -/
def strContains (s pat : String) : Bool :=
  containsChars pat.data s.data

/-- Python's `s.endswith(pat)`. -/
def endsWithStr (s pat : String) : Bool :=
  startsWithChars pat.data.reverse s.data.reverse

/-- One element of the feed's `assets` list; only the fields the code reads
(`name`, `browser_download_url`, `size`, lines 412 and 425-427). -/
structure ReleaseAsset where
  name : String
  browser_download_url : String
  size : Nat
deriving Repr, DecidableEq

/-- Line 409: `pattern = f"spec-kit-template-\x7bai_assistant\x7d"`. -/
def templatePattern (aiAssistant : String) : String :=
  "spec-kit-template-" ++ aiAssistant

/-- Lines 410-413: keep the assets whose name contains the variant pattern
and ends with `.zip`, in feed-listed order. -/
def matchingAssets (aiAssistant : String) (assets : List ReleaseAsset) : List ReleaseAsset :=
  assets.filter (fun a =>
    strContains a.name (templatePattern aiAssistant) && endsWithStr a.name ".zip")

/-- The `typer.Exit(1)` raised on a failed resolution (line 421): it
carries only an exit code, no detail about the assets. -/
structure TyperExit where
  code : Nat
deriving Repr, DecidableEq

/-- Lines 415-424. When nothing matches, the diagnostic that lists each
`asset['name']` (lines 416-420) is console output guarded by
`if verbose:`; what is raised afterwards is a bare `typer.Exit(1)`. When
one or more assets match, the first in feed-listed order is returned
(`asset = matching_assets[0]`). The first component is the list of asset
names printed by the no-match diagnostic (empty when `verbose` is false
or when resolution succeeds, since that diagnostic then prints nothing);
the second is the returned asset or the raised exit. On the program's
only call path, `init` passes a tracker to
`download_and_extract_template`, which therefore calls this helper with
`verbose=False` (line 499). -/
def resolveTemplateAsset (aiAssistant : String) (verbose : Bool) (assets : List ReleaseAsset) :
    List String × Except TyperExit ReleaseAsset :=
  match matchingAssets aiAssistant assets with
  | [] =>
      ((if verbose then assets.map (fun a => a.name) else []), Except.error { code := 1 })
  | a :: _ => ([], Except.ok a)

/-! ## Archive materialization as a file tree (lines 520-609)

Directories are ordered association lists of named nodes; the order is the
enumeration order of `iterdir`/extraction. Filesystem operations that
would raise (creating a directory where a file sits, copying a file onto
a directory) return `none`. -/

/-- A file with contents, or a directory of named entries. -/
inductive FsNode where
  | file (content : String)
  | dir (entries : List (String × FsNode))

/-- Entry lookup by name (`dest_path.exists()` and friends). -/
def lookupEntry : List (String × FsNode) → String → Option FsNode
  | [], _ => none
  | (n, v) :: rest, name => if n == name then some v else lookupEntry rest name

/-- Create or replace the entry `name`, preserving the position of an
existing entry and appending a new one. -/
def setEntry : List (String × FsNode) → String → FsNode → List (String × FsNode)
  | [], name, v => [(name, v)]
  | (n, w) :: rest, name, v =>
      if n == name then (n, v) :: rest else (n, w) :: setEntry rest name v

/-- All files below a directory with their relative paths, depth first —
the `item.rglob('*')` loop of line 566 filtered by `is_file()` (line 567).
Empty subdirectories contribute nothing, as in the source, where only
files are copied and parent directories are created on demand. -/
def filesOfEntries : List (String × FsNode) → List (List String × String)
  | [] => []
  | (n, FsNode.file c) :: rest => ([n], c) :: filesOfEntries rest
  | (n, FsNode.dir sub) :: rest =>
      ((filesOfEntries sub).map (fun q => (n :: q.1, q.2))) ++ filesOfEntries rest

/-- Write one file at a path, creating intermediate directories
(`dest_file.parent.mkdir(parents=True, exist_ok=True)` then
`shutil.copy2`, lines 570-571). When the final component exists as a
directory, `shutil.copy2` places the file inside it under its own
basename; `none` models the raised exception when an intermediate
component exists as a file (the `mkdir`) or `copy2`'s effective
destination is itself a directory. -/
def writeFileAt : List (String × FsNode) → List String → String → Option (List (String × FsNode))
  | _, [], _ => none
  | root, [fname], content =>
      match lookupEntry root fname with
      | some (FsNode.dir sub) =>
          match lookupEntry sub fname with
          | some (FsNode.dir _) => none
          | _ => some (setEntry root fname (FsNode.dir (setEntry sub fname (FsNode.file content))))
      | _ => some (setEntry root fname (FsNode.file content))
  | root, d :: rest, content =>
      match lookupEntry root d with
      | some (FsNode.file _) => none
      | some (FsNode.dir sub) =>
          (writeFileAt sub rest content).map (fun sub2 => setEntry root d (FsNode.dir sub2))
      | none =>
          (writeFileAt [] rest content).map (fun sub2 => setEntry root d (FsNode.dir sub2))

/-- Fold `writeFileAt` over a list of files. -/
def writeAll : List (String × FsNode) → List (List String × String) → Option (List (String × FsNode))
  | dest, [] => some dest
  | dest, (p, c) :: rest =>
      match writeFileAt dest p c with
      | some d2 => writeAll d2 rest
      | none => none

/-- The copy loop of the current-directory branch (lines 559-577): for each
top-level entry of the (already flattened) source, a directory whose name
exists at the destination is merged file by file, a directory with no
same-named destination is copied wholesale (`shutil.copytree`), and a file
overwrites a same-named destination file (`shutil.copy2`); when the
destination of `copy2` is an existing directory, shutil places the file
inside it under its own name. -/
def mergeTopLevel : List (String × FsNode) → List (String × FsNode) → Option (List (String × FsNode))
  | [], dest => some dest
  | (name, FsNode.dir sub) :: rest, dest =>
      match lookupEntry dest name with
      | some _ =>
          match writeAll dest ((filesOfEntries sub).map (fun q => (name :: q.1, q.2))) with
          | some dest2 => mergeTopLevel rest dest2
          | none => none
      | none => mergeTopLevel rest (setEntry dest name (FsNode.dir sub))
  | (name, FsNode.file c) :: rest, dest =>
      match lookupEntry dest name with
      | some (FsNode.dir sub) =>
          mergeTopLevel rest (setEntry dest name (FsNode.dir (setEntry sub name (FsNode.file c))))
      | _ => mergeTopLevel rest (setEntry dest name (FsNode.file c))

/-- The single-root flattening rule: when the extracted contents consist of
exactly one top-level entry and it is a directory, its contents replace it
(lines 550-551 select it as `source_dir`; lines 595-604 perform the same
net effect by the move/rmdir/rename dance). -/
def flattenSource (items : List (String × FsNode)) : List (String × FsNode) :=
  match items with
  | [(_, FsNode.dir sub)] => sub
  | _ => items

/-- NewDirectory placement (lines 581-604): `extractall` into the freshly
created empty project directory makes its contents the archive contents,
then the single-root flattening is applied. -/
def materializeNew (archive : List (String × FsNode)) : List (String × FsNode) :=
  flattenSource archive

/-- MergeIntoExisting placement (lines 535-577): extract into a temporary
directory, flatten its single root if any, then run the copy loop against
the existing target contents. -/
def materializeMerge (archive target : List (String × FsNode)) :
    Option (List (String × FsNode)) :=
  mergeTopLevel (flattenSource archive) target

/-! ## One orchestrated run (`init` lines 749-795 driving
`download_and_extract_template` lines 486-635)

The run is modelled as a function from a failure scenario to the final
tracker state plus two filesystem facts: whether the downloaded archive
still exists and whether the target project directory exists. Scenarios
cover the fallible operations of the pipeline stages; the injected
exception message is carried in the scenario. -/

/-- Whether `init` was given a project name (a fresh directory is created,
line 523) or `--here` (the current directory is merged into,
`is_current_dir = True`). -/
inductive PlacementMode where
  | newDirectory
  | mergeIntoExisting
deriving Repr, DecidableEq

/-- Which statement of the extraction `try` block (lines 520-620) raises. -/
inductive ExtractFailPoint where
  /-- `project_path.mkdir(parents=True)` (line 523), NewDirectory only;
  the target directory is never created. -/
  | duringMkdir
  /-- `zipfile.ZipFile(zip_path)` (line 525), before the zip-list step. -/
  | duringZipOpen
  /-- `zip_ref.extractall` (line 538 or 582), after the zip-list step. -/
  | duringExtractAll
  /-- After the extracted-summary step: the flatten move dance
  (lines 600-604, NewDirectory with a single root) or the merge copy loop
  (lines 559-577, MergeIntoExisting). -/
  | duringPlacement
deriving Repr, DecidableEq

/-- How the git step of `init` (lines 776-788) ends on a successful
pipeline run. -/
inductive GitOutcome where
  | repoDetected
  | initialized
  | initFailed
  | gitUnavailable
  | noGitFlag
deriving Repr, DecidableEq

/-- Failure scenario of one run. -/
inductive Scenario where
  /-- All pipeline stages succeed. -/
  | success (git : GitOutcome)
  /-- `httpx.get`/`raise_for_status` on the release feed raises
  (lines 400-406); no archive was written. -/
  | fetchApiFail (msg : String)
  /-- No asset matches the variant (lines 415-421); no archive written. -/
  | assetNotFound (msg : String)
  /-- `httpx.RequestError` mid-stream (lines 469-474); the partial archive
  is unlinked inside `download_template_from_github` itself. -/
  | downloadFail (msg : String)
  /-- An exception inside the extraction `try` block. -/
  | extractFail (p : ExtractFailPoint) (msg : String)
deriving Repr, DecidableEq

/-- Runtime-dependent detail strings shown by the tracker (release tag,
sizes, entry counts); free parameters of the run. -/
structure RunDetails where
  selectedAi : String
  releaseDetail : String
  filename : String
  zipCountDetail : String
  summaryDetail : String
deriving Repr, DecidableEq

/-- Scenarios that cannot occur for a given mode and archive shape:
`duringMkdir` needs a fresh directory, and in NewDirectory mode nothing
fallible runs after the summary unless the archive has a single root
directory to flatten. -/
def validRun : PlacementMode → Bool → Scenario → Bool
  | PlacementMode.newDirectory, false, Scenario.extractFail ExtractFailPoint.duringPlacement _ => false
  | PlacementMode.mergeIntoExisting, _, Scenario.extractFail ExtractFailPoint.duringMkdir _ => false
  | _, _, _ => true

/-- A scenario in which the pipeline (fetch/download/extract) fails. -/
def Scenario.isFail : Scenario → Bool
  | Scenario.success _ => false
  | _ => true

/-- The tracker key the failing stage is recorded under: every exception of
`download_template_from_github` is caught at lines 506-508 and recorded on
the `fetch` step (including mid-download transport errors), extraction
failures on the `extract` step (line 613). -/
def Scenario.stageKey : Scenario → String
  | Scenario.fetchApiFail _ => "fetch"
  | Scenario.assetNotFound _ => "fetch"
  | Scenario.downloadFail _ => "fetch"
  | Scenario.extractFail _ _ => "extract"
  | Scenario.success _ => "final"

/-- Final state of a run. -/
structure RunResult where
  tracker : StepTracker
  zipExists : Bool
  targetExists : Bool

/-- The tracker as `init` sets it up before entering the Live block
(lines 749-767): precheck and ai-select already done, the eight pipeline
steps pending, in this order. -/
def initialTracker (d : RunDetails) : StepTracker :=
  let t : StepTracker := { title := "Specifyプロジェクトの初期化", steps := [] }
  let t := t.add "precheck" "必要なツールを確認"
  let t := t.complete "precheck" "OK"
  let t := t.add "ai-select" "AIアシスタントを選択"
  let t := t.complete "ai-select" d.selectedAi
  let t := t.add "fetch" "最新リリースを取得"
  let t := t.add "download" "テンプレートをダウンロード"
  let t := t.add "extract" "テンプレートを展開"
  let t := t.add "zip-list" "アーカイブの内容"
  let t := t.add "extracted-summary" "展開の要約"
  let t := t.add "cleanup" "クリーンアップ"
  let t := t.add "git" "Gitリポジトリを初期化"
  let t := t.add "final" "完了"
  t

/-- Tracker calls shared by all runs that get past the download: lines
503-505 and 514-516. -/
def afterDownloadTracker (d : RunDetails) (t : StepTracker) : StepTracker :=
  let t := t.complete "fetch" d.releaseDetail
  let t := t.add "download" "Download template"
  let t := t.complete "download" d.filename
  let t := t.add "extract" "Extract template"
  t.start "extract" ""

/-- The `finally` block of the extraction `try` (lines 624-633): the
cleanup step is re-`add`ed (a no-op, it is pre-registered), the archive is
unlinked and the step completed — this runs on failures too, which is why
a failed run still shows `cleanup` as done. -/
def cleanupTracker (t : StepTracker) : StepTracker :=
  let t := t.add "cleanup" "Remove temporary archive"
  t.complete "cleanup" ""

/-- One full run of `init`'s pipeline section: the tracker trace and the
fate of the archive file and the target directory, per scenario.

Filesystem facts mirrored from the source:
* fetch/asset failures happen before the archive is written; a mid-stream
  transport failure unlinks the partial archive (lines 472-473); every run
  that gets further unlinks it in the `finally` block (lines 628-629) —
  so `zipExists` is false on every exit path;
* on an extraction failure the `except` branch removes a non-current-dir
  target if it exists (lines 618-619) and `init`'s handler does the same
  (lines 793-794), so in NewDirectory mode the target is gone whether it
  was never created (`duringMkdir`), created (`duringZipOpen`,
  `duringExtractAll`) or half-renamed away (`duringPlacement`); in
  MergeIntoExisting mode (`--here`) both guards are skipped and the
  pre-existing directory survives. -/
def runInit (mode : PlacementMode) (singleRoot : Bool) (d : RunDetails) (s : Scenario) :
    RunResult :=
  let t := initialTracker d
  let t := t.start "fetch" "contacting GitHub API"
  match s with
  | Scenario.fetchApiFail msg =>
      let t := t.error "fetch" msg
      let t := t.error "final" msg
      { tracker := t, zipExists := false,
        targetExists := mode == PlacementMode.mergeIntoExisting }
  | Scenario.assetNotFound msg =>
      let t := t.error "fetch" msg
      let t := t.error "final" msg
      { tracker := t, zipExists := false,
        targetExists := mode == PlacementMode.mergeIntoExisting }
  | Scenario.downloadFail msg =>
      let t := t.error "fetch" msg
      let t := t.error "final" msg
      { tracker := t, zipExists := false,
        targetExists := mode == PlacementMode.mergeIntoExisting }
  | Scenario.extractFail p msg =>
      let t := afterDownloadTracker d t
      let t :=
        match p with
        | ExtractFailPoint.duringMkdir => t
        | ExtractFailPoint.duringZipOpen => t
        | ExtractFailPoint.duringExtractAll =>
            let t := t.start "zip-list" ""
            t.complete "zip-list" d.zipCountDetail
        | ExtractFailPoint.duringPlacement =>
            let t := t.start "zip-list" ""
            let t := t.complete "zip-list" d.zipCountDetail
            let t := t.start "extracted-summary" ""
            let t := t.complete "extracted-summary" d.summaryDetail
            -- lines 550-556: in the current-directory branch the flatten
            -- step is recorded before the copy loop runs
            if mode == PlacementMode.mergeIntoExisting && singleRoot then
              let t := t.add "flatten" "Flatten nested directory"
              t.complete "flatten" ""
            else t
      let t := t.error "extract" msg
      let t := cleanupTracker t
      let t := t.error "final" msg
      { tracker := t, zipExists := false,
        targetExists := mode == PlacementMode.mergeIntoExisting }
  | Scenario.success g =>
      let t := afterDownloadTracker d t
      let t := t.start "zip-list" ""
      let t := t.complete "zip-list" d.zipCountDetail
      let t := t.start "extracted-summary" ""
      let t := t.complete "extracted-summary" d.summaryDetail
      let t :=
        if singleRoot then
          let t := t.add "flatten" "Flatten nested directory"
          t.complete "flatten" ""
        else t
      let t := t.complete "extract" ""
      let t := cleanupTracker t
      let t :=
        match g with
        | GitOutcome.noGitFlag => t.skip "git" "--no-gitフラグ"
        | GitOutcome.repoDetected => (t.start "git" "").complete "git" "既存のリポジトリを検出"
        | GitOutcome.initialized => (t.start "git" "").complete "git" "初期化完了"
        | GitOutcome.initFailed => (t.start "git" "").error "git" "初期化失敗"
        | GitOutcome.gitUnavailable => (t.start "git" "").skip "git" "gitが利用できません"
      let t := t.complete "final" "プロジェクト準備完了"
      { tracker := t, zipExists := false, targetExists := true }

/-- Whether the target directory had been created by the run before the
failure point (for `duringMkdir` the `mkdir` call itself raised). -/
def ExtractFailPoint.dirCreated : ExtractFailPoint → Bool
  | ExtractFailPoint.duringMkdir => false
  | _ => true

/-! ### Detail erasure

Step statuses never depend on the free-text details, so properties about
statuses are transported to a run with all detail strings blank, where
they can be computed. -/

/-- Blank out the detail of every step. -/
def eraseStepDetails (l : List Step) : List Step :=
  l.map (fun s => { s with detail := "" })

/-- Blank out every detail of a tracker. -/
def eraseDetails (t : StepTracker) : StepTracker :=
  { t with steps := eraseStepDetails t.steps }

/-- The run details with every string blank. -/
def blankDetails : RunDetails :=
  { selectedAi := "", releaseDetail := "", filename := "", zipCountDetail := "", summaryDetail := "" }

/-- A scenario with its exception message blanked. -/
def Scenario.blank : Scenario → Scenario
  | Scenario.success g => Scenario.success g
  | Scenario.fetchApiFail _ => Scenario.fetchApiFail ""
  | Scenario.assetNotFound _ => Scenario.assetNotFound ""
  | Scenario.downloadFail _ => Scenario.downloadFail ""
  | Scenario.extractFail p _ => Scenario.extractFail p ""

/-! ## Helper lemmas: statuses are independent of detail strings -/

theorem eraseStepDetails_updateSteps (steps : List Step) (k st d : String) :
    eraseStepDetails (updateSteps steps k st d) = updateSteps (eraseStepDetails steps) k st "" := by
  induction steps with
  | nil => simp [updateSteps, eraseStepDetails]
  | cons s rest ih =>
    obtain ⟨sk, sl, sst, sd⟩ := s
    by_cases hs : (sk == k) = true
    · simp [updateSteps, eraseStepDetails, hs]
    · simp [updateSteps, eraseStepDetails, hs]
      simpa [eraseStepDetails] using ih

theorem eraseDetails_update (t : StepTracker) (k st d : String) :
    eraseDetails (t.update k st d) = (eraseDetails t).update k st "" := by
  simp [StepTracker.update, eraseDetails, eraseStepDetails_updateSteps]

theorem eraseStepDetails_keys (l : List Step) :
    (eraseStepDetails l).map (fun s => s.key) = l.map (fun s => s.key) := by
  simp only [eraseStepDetails, List.map_map]
  rfl

theorem eraseDetails_add (t : StepTracker) (k l : String) :
    eraseDetails (t.add k l) = (eraseDetails t).add k l := by
  simp only [StepTracker.add, eraseDetails, eraseStepDetails_keys]
  by_cases hc : ((t.steps.map (fun s => s.key)).contains k) = true
  · rw [if_pos hc, if_pos hc]
  · rw [if_neg hc, if_neg hc]
    simp [eraseStepDetails]

theorem eraseDetails_start (t : StepTracker) (k d : String) :
    eraseDetails (t.start k d) = (eraseDetails t).start k "" := by
  simp [StepTracker.start, eraseDetails_update]

theorem eraseDetails_complete (t : StepTracker) (k d : String) :
    eraseDetails (t.complete k d) = (eraseDetails t).complete k "" := by
  simp [StepTracker.complete, eraseDetails_update]

theorem eraseDetails_error (t : StepTracker) (k d : String) :
    eraseDetails (t.error k d) = (eraseDetails t).error k "" := by
  simp [StepTracker.error, eraseDetails_update]

theorem eraseDetails_skip (t : StepTracker) (k d : String) :
    eraseDetails (t.skip k d) = (eraseDetails t).skip k "" := by
  simp [StepTracker.skip, eraseDetails_update]

theorem errorCount_erase (t : StepTracker) : errorCount (eraseDetails t) = errorCount t := by
  simp only [errorCount, eraseDetails, eraseStepDetails]
  induction t.steps with
  | nil => rfl
  | cons s rest ih =>
    by_cases h : (s.status == "error") = true <;>
      simp [List.filter_cons, h, ih]

theorem statusOf_erase (t : StepTracker) (k : String) :
    (eraseDetails t).statusOf k = t.statusOf k := by
  simp only [StepTracker.statusOf, eraseDetails]
  induction t.steps with
  | nil => rfl
  | cons s rest ih =>
    by_cases h : (s.key == k) = true
    · simp only [eraseStepDetails, List.map_cons]
      rw [List.find?_cons_of_pos, List.find?_cons_of_pos]
      · rfl
      · exact h
      · exact h
    · simp only [eraseStepDetails, List.map_cons] at ih ⊢
      rw [List.find?_cons_of_neg, List.find?_cons_of_neg]
      · exact ih
      · exact h
      · exact h

theorem runInit_erase (mode : PlacementMode) (sr : Bool) (d : RunDetails) (s : Scenario) :
    eraseDetails (runInit mode sr d s).tracker
      = eraseDetails (runInit mode sr blankDetails s.blank).tracker := by
  cases s with
  | success g =>
      cases g <;> cases mode <;> cases sr <;>
        simp [runInit, Scenario.blank, initialTracker, afterDownloadTracker, cleanupTracker,
          blankDetails, eraseDetails_add, eraseDetails_start, eraseDetails_complete,
          eraseDetails_error, eraseDetails_skip]
  | fetchApiFail msg =>
      cases mode <;> cases sr <;>
        simp [runInit, Scenario.blank, initialTracker, afterDownloadTracker, cleanupTracker,
          blankDetails, eraseDetails_add, eraseDetails_start, eraseDetails_complete,
          eraseDetails_error, eraseDetails_skip]
  | assetNotFound msg =>
      cases mode <;> cases sr <;>
        simp [runInit, Scenario.blank, initialTracker, afterDownloadTracker, cleanupTracker,
          blankDetails, eraseDetails_add, eraseDetails_start, eraseDetails_complete,
          eraseDetails_error, eraseDetails_skip]
  | downloadFail msg =>
      cases mode <;> cases sr <;>
        simp [runInit, Scenario.blank, initialTracker, afterDownloadTracker, cleanupTracker,
          blankDetails, eraseDetails_add, eraseDetails_start, eraseDetails_complete,
          eraseDetails_error, eraseDetails_skip]
  | extractFail p msg =>
      cases p <;> cases mode <;> cases sr <;>
        simp [runInit, Scenario.blank, initialTracker, afterDownloadTracker, cleanupTracker,
          blankDetails, eraseDetails_add, eraseDetails_start, eraseDetails_complete,
          eraseDetails_error, eraseDetails_skip]

theorem errorCount_runInit (mode : PlacementMode) (sr : Bool) (d : RunDetails) (s : Scenario) :
    errorCount (runInit mode sr d s).tracker
      = errorCount (runInit mode sr blankDetails s.blank).tracker := by
  rw [← errorCount_erase (runInit mode sr d s).tracker, runInit_erase, errorCount_erase]

theorem statusOf_runInit (mode : PlacementMode) (sr : Bool) (d : RunDetails) (s : Scenario)
    (k : String) :
    (runInit mode sr d s).tracker.statusOf k
      = (runInit mode sr blankDetails s.blank).tracker.statusOf k := by
  rw [← statusOf_erase (runInit mode sr d s).tracker k, runInit_erase, statusOf_erase]

theorem updateSteps_empty_detail (steps : List Step) (k st : String)
    (h : ((steps.map (fun s => s.key)).contains k) = true) :
    ((updateSteps steps k st "").find? (fun s => s.key == k)).map (fun s => s.detail)
        = (steps.find? (fun s => s.key == k)).map (fun s => s.detail) ∧
    ((updateSteps steps k st "").find? (fun s => s.key == k)).map (fun s => s.status)
        = some st := by
  induction steps with
  | nil => simp at h
  | cons s rest ih =>
    obtain ⟨sk, sl, sst, sd⟩ := s
    by_cases hs : (sk == k) = true
    · rw [updateSteps, if_pos hs]
      rw [List.find?_cons_of_pos _ (by simpa using hs),
        List.find?_cons_of_pos _ (by simpa using hs)]
      constructor
      · simp
      · simp
    · have h' : ((rest.map (fun s => s.key)).contains k) = true := by
        simp only [List.map_cons, List.contains_cons] at h
        rcases Bool.or_eq_true_iff.mp h with h1 | h2
        · exact absurd (beq_iff_eq.mpr (eq_of_beq h1).symm) hs
        · exact h2
      rw [updateSteps, if_neg hs]
      rw [List.find?_cons_of_neg _ (by simpa using hs),
        List.find?_cons_of_neg _ (by simpa using hs)]
      exact ih h'

/-! ## Claim theorems -/

/-- Claim C1, counterexample. The claim states that after a pipeline run
that fails at any stage the final Tracker render shows exactly one step
with status `error`, and every step after the errored step is `pending`
or `skipped`, never `done`. On a run in NewDirectory mode whose
`extractall` raises, the code marks `extract` as `error` (line 613), then
the `finally` block completes the `cleanup` step (lines 624-631) — a
`done` step listed after the errored one — and `init`'s handler marks
`final` as `error` as well (line 792): two `error` steps, not one. -/
theorem c1_counterexample :
    errorCount (runInit PlacementMode.newDirectory true
        { selectedAi := "claude", releaseDetail := "release v0.0.30 (12,345 bytes)",
          filename := "spec-kit-template-claude.zip", zipCountDetail := "24 entries",
          summaryDetail := "1 top-level items" }
        (Scenario.extractFail ExtractFailPoint.duringExtractAll "disk full")).tracker = 2 ∧
    (runInit PlacementMode.newDirectory true
        { selectedAi := "claude", releaseDetail := "release v0.0.30 (12,345 bytes)",
          filename := "spec-kit-template-claude.zip", zipCountDetail := "24 entries",
          summaryDetail := "1 top-level items" }
        (Scenario.extractFail ExtractFailPoint.duringExtractAll "disk full")).tracker.statusOf
        "extract" = some "error" ∧
    (runInit PlacementMode.newDirectory true
        { selectedAi := "claude", releaseDetail := "release v0.0.30 (12,345 bytes)",
          filename := "spec-kit-template-claude.zip", zipCountDetail := "24 entries",
          summaryDetail := "1 top-level items" }
        (Scenario.extractFail ExtractFailPoint.duringExtractAll "disk full")).tracker.statusOf
        "cleanup" = some "done" := by
  decide

/-- Claim C1, amended: after a pipeline run that fails at the fetch,
download, or extract stage, the final Tracker render shows exactly two
steps with status `error` — the step of the stage the failure is recorded
on (`fetch` for release-feed, asset-resolution and mid-download failures;
`extract` for extraction failures) and the `final` step — and steps after
the errored stage step are not all `pending`/`skipped`: the `cleanup`
step is `done` on extraction failures. -/
theorem c1_failed_run_two_error_steps (mode : PlacementMode) (sr : Bool) (d : RunDetails)
    (s : Scenario) (hv : validRun mode sr s = true) (hf : s.isFail = true) :
    errorCount (runInit mode sr d s).tracker = 2 ∧
    (runInit mode sr d s).tracker.statusOf "final" = some "error" ∧
    (runInit mode sr d s).tracker.statusOf s.stageKey = some "error" := by
  cases s with
  | success g => simp [Scenario.isFail] at hf
  | fetchApiFail msg =>
      simp only [Scenario.stageKey]
      rw [errorCount_runInit mode sr d (Scenario.fetchApiFail msg),
        statusOf_runInit mode sr d (Scenario.fetchApiFail msg) "final",
        statusOf_runInit mode sr d (Scenario.fetchApiFail msg) "fetch"]
      simp only [Scenario.blank]
      cases mode <;> cases sr <;> exact ⟨by decide, by decide, by decide⟩
  | assetNotFound msg =>
      simp only [Scenario.stageKey]
      rw [errorCount_runInit mode sr d (Scenario.assetNotFound msg),
        statusOf_runInit mode sr d (Scenario.assetNotFound msg) "final",
        statusOf_runInit mode sr d (Scenario.assetNotFound msg) "fetch"]
      simp only [Scenario.blank]
      cases mode <;> cases sr <;> exact ⟨by decide, by decide, by decide⟩
  | downloadFail msg =>
      simp only [Scenario.stageKey]
      rw [errorCount_runInit mode sr d (Scenario.downloadFail msg),
        statusOf_runInit mode sr d (Scenario.downloadFail msg) "final",
        statusOf_runInit mode sr d (Scenario.downloadFail msg) "fetch"]
      simp only [Scenario.blank]
      cases mode <;> cases sr <;> exact ⟨by decide, by decide, by decide⟩
  | extractFail p msg =>
      simp only [Scenario.stageKey]
      rw [errorCount_runInit mode sr d (Scenario.extractFail p msg),
        statusOf_runInit mode sr d (Scenario.extractFail p msg) "final",
        statusOf_runInit mode sr d (Scenario.extractFail p msg) "extract"]
      simp only [Scenario.blank]
      cases p <;> cases mode <;> cases sr <;> exact ⟨by decide, by decide, by decide⟩

/-- Witness for the amended Claim C1 at a concrete failing run. -/
theorem c1_witness :
    (validRun PlacementMode.mergeIntoExisting true
        (Scenario.extractFail ExtractFailPoint.duringPlacement "copy failed") = true ∧
      (Scenario.extractFail ExtractFailPoint.duringPlacement "copy failed").isFail = true) ∧
    (errorCount (runInit PlacementMode.mergeIntoExisting true blankDetails
        (Scenario.extractFail ExtractFailPoint.duringPlacement "copy failed")).tracker = 2 ∧
      (runInit PlacementMode.mergeIntoExisting true blankDetails
        (Scenario.extractFail ExtractFailPoint.duringPlacement "copy failed")).tracker.statusOf
        "final" = some "error" ∧
      (runInit PlacementMode.mergeIntoExisting true blankDetails
        (Scenario.extractFail ExtractFailPoint.duringPlacement "copy failed")).tracker.statusOf
        (Scenario.extractFail ExtractFailPoint.duringPlacement "copy failed").stageKey
        = some "error") :=
  ⟨⟨by decide, by decide⟩,
    c1_failed_run_two_error_steps PlacementMode.mergeIntoExisting true blankDetails
      (Scenario.extractFail ExtractFailPoint.duringPlacement "copy failed")
      (by decide) (by decide)⟩

/-- Claim C2, counterexample. The claim states that for a feed whose asset
list is exactly `["tmpl-a-v1.zip", "tmpl-a-v2.zip"]` and variant `a`,
resolution succeeds and returns `tmpl-a-v1.zip`. The code's filter
(lines 409-413) requires the asset name to contain
`spec-kit-template-a`, which neither name does, so resolution fails by
raising `typer.Exit(1)` — on the pipeline's non-verbose call path and on
the verbose one alike — instead of succeeding. -/
theorem c2_counterexample :
    (resolveTemplateAsset "a" false
        [{ name := "tmpl-a-v1.zip", browser_download_url := "u1", size := 1 },
         { name := "tmpl-a-v2.zip", browser_download_url := "u2", size := 2 }]).2
      = Except.error { code := 1 } ∧
    (resolveTemplateAsset "a" true
        [{ name := "tmpl-a-v1.zip", browser_download_url := "u1", size := 1 },
         { name := "tmpl-a-v2.zip", browser_download_url := "u2", size := 2 }]).2
      = Except.error { code := 1 } := ⟨rfl, rfl⟩

/-- Claim C2, amended: for a release feed whose asset list is exactly
`["spec-kit-template-a-v1.zip", "spec-kit-template-a-v2.zip"]` (names that
contain the variant pattern `spec-kit-template-a` and end with `.zip`)
and requested variant `a`, resolution succeeds and returns the asset
named `spec-kit-template-a-v1.zip` — the first match in feed-listed
order — regardless of the verbose setting. -/
theorem c2_amended_first_match :
    (resolveTemplateAsset "a" false
        [{ name := "spec-kit-template-a-v1.zip", browser_download_url := "u1", size := 1 },
         { name := "spec-kit-template-a-v2.zip", browser_download_url := "u2", size := 2 }]).2
      = Except.ok { name := "spec-kit-template-a-v1.zip", browser_download_url := "u1", size := 1 } ∧
    (resolveTemplateAsset "a" true
        [{ name := "spec-kit-template-a-v1.zip", browser_download_url := "u1", size := 1 },
         { name := "spec-kit-template-a-v2.zip", browser_download_url := "u2", size := 2 }]).2
      = Except.ok { name := "spec-kit-template-a-v1.zip", browser_download_url := "u1", size := 1 } :=
  ⟨rfl, rfl⟩

/-- Claim C3: for every run of the pipeline — success or any of the
modelled failure kinds (release-feed failure, no matching asset,
mid-download transport failure, extraction failure at any point) — the
downloaded archive file does not exist on disk after the run completes:
failures before the download leave no file, a mid-stream failure unlinks
the partial file (lines 472-473), and every later exit path unlinks it in
the `finally` block (lines 628-629). -/
theorem c3_archive_always_removed (mode : PlacementMode) (sr : Bool) (d : RunDetails)
    (s : Scenario) :
    (runInit mode sr d s).zipExists = false := by
  cases s <;> rfl

/-- Claim C4: in NewDirectory placement mode, if materialization fails
after the target directory was created by this run, the target directory
does not exist after the run returns its error — the `except` branch
removes it (lines 618-619) and `init`'s handler would again (793-794). -/
theorem c4_rollback_on_fresh_failure (sr : Bool) (d : RunDetails) (p : ExtractFailPoint)
    (msg : String) (h : p.dirCreated = true) :
    (runInit PlacementMode.newDirectory sr d (Scenario.extractFail p msg)).targetExists
      = false := rfl

/-- Witness for Claim C4 at a concrete extraction failure. -/
theorem c4_witness :
    ExtractFailPoint.duringZipOpen.dirCreated = true ∧
    (runInit PlacementMode.newDirectory false blankDetails
        (Scenario.extractFail ExtractFailPoint.duringZipOpen "bad zip")).targetExists = false :=
  ⟨by decide,
    c4_rollback_on_fresh_failure false blankDetails ExtractFailPoint.duringZipOpen "bad zip"
      (by decide)⟩

/-- Claim C5: in MergeIntoExisting placement mode, if materialization
fails, the pre-existing target directory still exists after the run
returns its error — both rollback guards are skipped because
`is_current_dir`/`here` is true (lines 618 and 793). -/
theorem c5_no_rollback_on_merge_failure (sr : Bool) (d : RunDetails) (p : ExtractFailPoint)
    (msg : String)
    (hv : validRun PlacementMode.mergeIntoExisting sr (Scenario.extractFail p msg) = true) :
    (runInit PlacementMode.mergeIntoExisting sr d (Scenario.extractFail p msg)).targetExists
      = true := rfl

/-- Witness for Claim C5 at a concrete merge-mode extraction failure. -/
theorem c5_witness :
    validRun PlacementMode.mergeIntoExisting true
        (Scenario.extractFail ExtractFailPoint.duringPlacement "copy error") = true ∧
    (runInit PlacementMode.mergeIntoExisting true blankDetails
        (Scenario.extractFail ExtractFailPoint.duringPlacement "copy error")).targetExists
      = true :=
  ⟨by decide,
    c5_no_rollback_on_merge_failure true blankDetails ExtractFailPoint.duringPlacement
      "copy error" (by decide)⟩

/-- Claim C6: materializing an archive whose single top-level entry is a
directory `X` containing files `a` and `b` yields a target directory
containing exactly `a` and `b` at its top level — not `X/a` and `X/b` —
in NewDirectory mode (lines 594-604) and in MergeIntoExisting mode into
an empty current directory (lines 549-556 plus the copy loop). -/
theorem c6_flattening (ca cb : String) :
    materializeNew [("X", FsNode.dir [("a", FsNode.file ca), ("b", FsNode.file cb)])]
        = [("a", FsNode.file ca), ("b", FsNode.file cb)] ∧
    materializeMerge [("X", FsNode.dir [("a", FsNode.file ca), ("b", FsNode.file cb)])] []
        = some [("a", FsNode.file ca), ("b", FsNode.file cb)] :=
  ⟨rfl, rfl⟩

/-- Claim C7: merging into a target that already contains file `a` with
content `old`, from an archive containing file `a` with content `new`,
overwrites `a` with `new` (line 577) and leaves a pre-existing file `c`
that the archive does not contain untouched. -/
theorem c7_merge_overwrite (old nw cc : String) :
    materializeMerge [("a", FsNode.file nw)]
        [("a", FsNode.file old), ("c", FsNode.file cc)]
      = some [("a", FsNode.file nw), ("c", FsNode.file cc)] := rfl

/-- Claim C8, counterexample. The claim states that when zero assets
match, resolution fails with an error whose detail enumerates every
available asset name. On the program's only call path `init` passes a
tracker, so the helper runs with `verbose=False` (line 499): the
enumeration at lines 416-420 is skipped and what is raised is a bare
`typer.Exit(1)` with no detail — at this concrete zero-match feed no
asset name is enumerated anywhere. -/
theorem c8_counterexample :
    resolveTemplateAsset "claude" false
        [{ name := "other.zip", browser_download_url := "u", size := 9 }]
      = ([], Except.error { code := 1 }) := rfl

/-- Claim C8, amended: if zero assets of the latest release match the
requested variant, resolution fails by raising `typer.Exit(1)`, which
carries no asset detail; the diagnostic enumerating every asset name
available in the feed (lines 416-420) is printed only when verbose
console output is enabled, which is never the case on the pipeline's
tracker-driven call path. -/
theorem c8_enumeration_only_when_verbose (aiAssistant : String) (assets : List ReleaseAsset)
    (h : matchingAssets aiAssistant assets = []) :
    resolveTemplateAsset aiAssistant true assets
      = (assets.map (fun a => a.name), Except.error { code := 1 }) ∧
    resolveTemplateAsset aiAssistant false assets
      = ([], Except.error { code := 1 }) := by
  constructor
  · rw [resolveTemplateAsset, h]
    rfl
  · rw [resolveTemplateAsset, h]
    rfl

/-- Witness for the amended Claim C8 on a feed with no matching asset. -/
theorem c8_witness :
    matchingAssets "claude"
        [{ name := "other.zip", browser_download_url := "u", size := 9 }] = [] ∧
    (resolveTemplateAsset "claude" true
        [{ name := "other.zip", browser_download_url := "u", size := 9 }]
        = (["other.zip"], Except.error { code := 1 }) ∧
      resolveTemplateAsset "claude" false
        [{ name := "other.zip", browser_download_url := "u", size := 9 }]
        = ([], Except.error { code := 1 })) :=
  ⟨rfl,
    c8_enumeration_only_when_verbose "claude"
      [{ name := "other.zip", browser_download_url := "u", size := 9 }] rfl⟩

/-- Claim C9: for every Tracker state and every mutation, an attached
observer that raises on every invocation never changes the resulting step
list — the result equals the pure mutation, and equals the result with a
non-throwing observer — and never causes the mutation to raise, because
`_maybe_refresh` catches and discards the exception (lines 110-115). -/
theorem c9_observer_safety (t : StepTracker) (m : Mutation) :
    applyMutationWithObserver t (some ObsBehavior.throws) m = Except.ok (applyMutation t m) ∧
    applyMutationWithObserver t (some ObsBehavior.throws) m
      = applyMutationWithObserver t (some ObsBehavior.ok) m := by
  cases m with
  | add k l =>
      by_cases hc : ((t.steps.map (fun s => s.key)).contains k) = true
      · have ha : t.add k l = t := by rw [StepTracker.add, if_pos hc]
        simp only [applyMutationWithObserver, applyMutation, maybeRefresh, runObserver, ha,
          if_pos hc]
        exact ⟨trivial, trivial⟩
      · simp only [applyMutationWithObserver, applyMutation, maybeRefresh, runObserver,
          if_neg hc]
        exact ⟨trivial, trivial⟩
  | start k d =>
      simp [applyMutationWithObserver, applyMutation, maybeRefresh, runObserver]
  | complete k d =>
      simp [applyMutationWithObserver, applyMutation, maybeRefresh, runObserver]
  | error k d =>
      simp [applyMutationWithObserver, applyMutation, maybeRefresh, runObserver]
  | skip k d =>
      simp [applyMutationWithObserver, applyMutation, maybeRefresh, runObserver]

/-- Claim C10: for a step whose key is already registered, `start`,
`complete`, `error` and `skip` called with an empty detail string update
the status but leave the previously stored detail unchanged, because
`_update` only overwrites the detail when the argument is non-empty
(Python `if detail:` at line 102). -/
theorem c10_empty_detail_preserved (t : StepTracker) (k : String)
    (h : ((t.steps.map (fun s => s.key)).contains k) = true) :
    ((t.start k "").detailOf k = t.detailOf k ∧ (t.start k "").statusOf k = some "running") ∧
    ((t.complete k "").detailOf k = t.detailOf k ∧ (t.complete k "").statusOf k = some "done") ∧
    ((t.error k "").detailOf k = t.detailOf k ∧ (t.error k "").statusOf k = some "error") ∧
    ((t.skip k "").detailOf k = t.detailOf k ∧ (t.skip k "").statusOf k = some "skipped") :=
  ⟨⟨(updateSteps_empty_detail t.steps k "running" h).1,
      (updateSteps_empty_detail t.steps k "running" h).2⟩,
    ⟨(updateSteps_empty_detail t.steps k "done" h).1,
      (updateSteps_empty_detail t.steps k "done" h).2⟩,
    ⟨(updateSteps_empty_detail t.steps k "error" h).1,
      (updateSteps_empty_detail t.steps k "error" h).2⟩,
    ⟨(updateSteps_empty_detail t.steps k "skipped" h).1,
      (updateSteps_empty_detail t.steps k "skipped" h).2⟩⟩

/-- Witness for Claim C10 on a concrete registered step whose stored
detail survives an empty-detail status change. -/
theorem c10_witness :
    (((({ title := "T",
          steps := [{ key := "a", label := "A", status := "running", detail := "kept" }] }
        : StepTracker).steps.map (fun s => s.key)).contains "a") = true) ∧
    ((({ title := "T",
          steps := [{ key := "a", label := "A", status := "running", detail := "kept" }] }
        : StepTracker).complete "a" "").detailOf "a"
        = ({ title := "T",
             steps := [{ key := "a", label := "A", status := "running", detail := "kept" }] }
          : StepTracker).detailOf "a") :=
  ⟨by decide,
    (c10_empty_detail_preserved
      { title := "T",
        steps := [{ key := "a", label := "A", status := "running", detail := "kept" }] }
      "a" (by decide)).2.1.1⟩
